import Mathlib

/-!
Verification of the TecZoneBend worker against its specification.

Shallow embedding of `src/worker/worker.py` and
`src/worker/teczone_actions.py`.  Each definition carries a comment naming
the source lines it embeds; theorems below settle the specification claims.
-/

namespace TecZoneBend

/-- Python's `str.lower()` on one character (ASCII range, which covers
the material names, statuses and extensions the worker compares). -/
def lowerChar (c : Char) : Char :=
  if 'A' ≤ c ∧ c ≤ 'Z' then Char.ofNat (c.toNat + 32) else c

/-- Python's `str.lower()`. -/
def lower (s : String) : String := ⟨s.data.map lowerChar⟩

/-- Job / part statuses used by `worker.py` (strings `"DONE"`, `"PARTIAL"`,
`"FAILED"`, `"NEEDS_HELP"`). -/
inductive Status where
  | DONE
  | PARTIAL
  | FAILED
  | NEEDS_HELP
deriving DecidableEq, Repr

/-- What happens while processing one work item inside the loop of
`process_job` (worker.py lines 465-595).  `badExtension` is the check at
lines 474-475 (`raise NeedsHelpError` placed *before* the per-item
`try`); the other three summarise the outcome of the step primitives
executed inside the per-item `try` (lines 503-536). -/
inductive ItemEvent where
  | success
  | raisesNeedsHelp
  | raisesOther
  | badExtension
deriving DecidableEq, Repr

/-- The part status recorded for an item, if any is appended:
`part_result["status"]` starts `"DONE"` (line 485), is set to
`"NEEDS_HELP"` at line 539 or `"FAILED"` at line 563; an item aborted by
the extension check at lines 474-475 never builds a part result. -/
def partOf : ItemEvent → Option Status
  | .success => some .DONE
  | .raisesNeedsHelp => some .NEEDS_HELP
  | .raisesOther => some .FAILED
  | .badExtension => none

/-- The work-item loop of `process_job` (worker.py lines 465-595),
threading `overall_status` and the accumulated `result["parts"]`.

* `[]`: loop finished normally -> `.ok (overall, parts)`.
* `badExtension`: line 475 raises `NeedsHelpError` outside the per-item
  `try`/`except`; the exception propagates out of the loop (the enclosing
  `try` at line 396 has only a `finally` that stops overlay/hotkeys), so
  the run ends in `.error` carrying the parts accumulated so far.
* `success`: part stays `"DONE"`; appended at line 595; loop continues.
* `raisesNeedsHelp`: lines 538-561 - part marked `NEEDS_HELP`,
  `overall_status = "NEEDS_HELP"` unconditionally (line 541), part
  appended (line 560), then `break` (line 561).
* `raisesOther`: lines 562-584 - part marked `FAILED`, appended at 595;
  `overall_status` set to `PARTIAL` only if it was still `DONE`
  (lines 583-584); loop continues. -/
def runItems (overall : Status) (parts : List Status) :
    List ItemEvent → Except (String × List Status) (Status × List Status)
  | [] => .ok (overall, parts)
  | .badExtension :: _ => .error ("Unsupported input extension", parts)
  | .success :: rest => runItems overall (parts ++ [Status.DONE]) rest
  | .raisesNeedsHelp :: _ =>
      .ok (Status.NEEDS_HELP, parts ++ [Status.NEEDS_HELP])
  | .raisesOther :: rest =>
      runItems (if overall = Status.DONE then Status.PARTIAL else overall)
        (parts ++ [Status.FAILED]) rest

/-- The post-loop status refinement of `process_job`
(worker.py lines 602-603):
`if overall_status == "DONE" and any(p["status"] == "FAILED" ...):`
`overall_status = "PARTIAL" if any(p["status"] == "DONE" ...) else "FAILED"`. -/
def finalStatus (overall : Status) (parts : List Status) : Status :=
  if overall = Status.DONE ∧ parts.any (fun p => p = Status.FAILED) then
    (if parts.any (fun p => p = Status.DONE) then Status.PARTIAL
     else Status.FAILED)
  else overall

/-- Outcome of `tz.connect()` inside `process_job`
(worker.py lines 404-434). -/
inductive ConnectOutcome where
  | ok
  | needsHelp
deriving DecidableEq, Repr

/-- `process_job` (worker.py lines 262-643) at the level of persisted
results: `some (status, parts)` means a Job Result with that overall
status and parts list is written to `<jobId>.result.json` and mirrored to
`result.json`; `none` means `process_job` is exited by a propagating
exception without writing either file.

* connect `NeedsHelp` (lines 408-434): result written with status
  `NEEDS_HELP` and empty parts, then return.
* `dryRun` (lines 436-462): result written with status `DONE`, empty
  parts, then return.
* loop completes (`runItems` returns `.ok`): the refinement of lines
  602-603 is applied and the result is written (lines 605-608).
* loop aborts via the extension check (`runItems` returns `.error`): the
  exception propagates through the `finally` at lines 596-600 (which only
  stops overlay/hotkeys) and out of `process_job`; lines 605-608 never
  run, so no Job Result is persisted. -/
def process_job (connect : ConnectOutcome) (dryRun : Bool)
    (events : List ItemEvent) : Option (Status × List Status) :=
  match connect with
  | .needsHelp => some (Status.NEEDS_HELP, [])
  | .ok =>
    if dryRun then some (Status.DONE, [])
    else
      match runItems Status.DONE [] events with
      | .error _ => none
      | .ok (overall, parts) => some (finalStatus overall parts, parts)

/-- `claim_job` (worker.py lines 221-229) over an abstract state
directory, modelled as the list of marker file names present.  The
marker is `f"{job_id}.processing"` created with mode `"x"` (exclusive
creation): returns `(True, marker)` on creation, `(False, marker)` when
the file already exists.  Result: (success flag, new state, marker name). -/
def claim_job (state : List String) (jobId : String) :
    Bool × List String × String :=
  let marker := jobId ++ ".processing"
  if marker ∈ state then (false, state, marker)
  else (true, marker :: state, marker)

/-- `release_job` (worker.py lines 232-237): renames the marker to
`marker.replace(".processing", f".{status.lower()}")` via `os.replace`;
any failure (e.g. missing source) is swallowed by `except: pass`. -/
def release_job (state : List String) (marker status : String) :
    List String :=
  if marker ∈ state then
    (marker.replace ".processing" ("." ++ lower status))
      :: state.erase marker
  else state

/-- Python's substring test `needle in hay` (used by `set_material`,
teczone_actions.py line 521, and by `find_unexpected_dialog`). -/
def pyContains (hay needle : String) : Bool :=
  (List.range (hay.data.length + 1)).any
    (fun i => needle.data.isPrefixOf (hay.data.drop i))

/-- The guard of `set_material` (teczone_actions.py lines 424-426):
`if not material: raise NeedsHelpError("Material from Xometry missing; material is required")`.
In Python `not material` is true for `None` and for the empty string.
Note the guard runs *before* `materialRequired` is read at line 429; the
parameter is threaded here to record that it is not consulted. -/
def set_material_gate (material : Option String) (_materialRequired : Bool) :
    Except String Unit :=
  match material with
  | none => .error "Material from Xometry missing; material is required"
  | some m =>
      if m = "" then
        .error "Material from Xometry missing; material is required"
      else .ok ()

/-- The list-selection step of `set_material`
(teczone_actions.py lines 513-529) on the visible labels of the
`ListItem` controls of the material dialog.

* empty list: `maybe_fail_or_skip("material list items not found")`
  (line 515) - modelled as `none`.
* otherwise: the first item whose lowered label contains
  `material.lower()` is clicked and its label returned with an empty
  note (lines 519-524); if none matches, `items[0]` is clicked and the
  note `f"material fallback to: {used_material}; requested: {material}"`
  is recorded (lines 526-529). -/
def selectMaterial (material : String) (labels : List String) :
    Option (String × String) :=
  match labels with
  | [] => none
  | first :: _ =>
    match labels.find? (fun l => pyContains (lower l) (lower material)) with
    | some l => some (l, "")
    | none =>
        some (first,
          "material fallback to: " ++ first ++ "; requested: " ++ material)

/-- One iteration's observations in the export-completion polling loop of
`export_geo` (teczone_actions.py lines 725-754): whether an overwrite
dialog is found (and whether confirming it succeeds), whether
`find_unexpected_dialog` reports a dialog, whether
`save_dialog_present(...)` holds, and whether
`Path(export_path).exists() and .stat().st_size > 0`. -/
structure PollObs where
  overwrite : Bool
  confirmOk : Bool
  unexpected : Bool
  saveDlg : Bool
  fileOk : Bool
deriving DecidableEq, Repr

/-- Outcome of the export-completion loop of `export_geo`. -/
inductive ExportOutcome where
  | success
  | helpOverwrite
  | helpUnexpected
  | helpTimeout
deriving DecidableEq, Repr

/-- The export-completion polling loop of `export_geo`
(teczone_actions.py lines 725-760), one list entry per iteration within
the `exportCompleteSeconds` deadline:

1. overwrite dialog found (line 727): confirm it; on confirm failure
   raise NeedsHelp (line 732); else `continue` (line 736).
2. unexpected dialog (lines 738-742): raise NeedsHelp.
3. lines 744-748: if the save dialog is *not* present and the file
   exists with non-zero size, return (success).
4. lines 750-753: if the file exists with non-zero size, return
   (success) - with no condition on the save dialog.
5. otherwise sleep and poll again.

An exhausted list is the elapsed deadline: NeedsHelp
`"Export GEO failed: file missing or empty after timeout"`
(lines 758-760). -/
def export_poll : List PollObs → ExportOutcome
  | [] => .helpTimeout
  | o :: rest =>
      if o.overwrite then
        if o.confirmOk then export_poll rest else .helpOverwrite
      else if o.unexpected then .helpUnexpected
      else if !o.saveDlg && o.fileOk then .success
      else if o.fileOk then .success
      else export_poll rest

/-- The input file as seen by `open_file`: whether
`Path(path).exists()` holds, and the file's base name (the last path
component), from which Python computes `Path(path).suffix`. -/
structure FileInfo where
  present : Bool
  name : String
deriving DecidableEq, Repr

/-- Index of the last `'.'` in a character list, as Python's
`str.rfind('.')` (`-1` when absent). -/
def rfindDot (cs : List Char) : Int :=
  (cs.enum.foldl
    (fun acc p => if p.2 = '.' then ((p.1 : Int)) else acc) (-1))

/-- `PurePath.suffix` of CPython's pathlib on a base name:
`i = name.rfind('.'); return name[i:] if 0 < i < len(name) - 1 else ''`. -/
def pySuffix (name : String) : String :=
  let i := rfindDot name.data
  if 0 < i ∧ i < (name.length : Int) - 1 then
    ⟨name.data.drop i.toNat⟩
  else ""

/-- The validation gate of `open_file`
(teczone_actions.py lines 302-307), run before any UI interaction:
`if not Path(path).exists(): raise NeedsHelpError(f"Input file not found: {path}")`
`if Path(path).suffix.lower() not in [".stp", ".step"]: raise NeedsHelpError(...)`. -/
def open_file_gate (f : FileInfo) : Except String Unit :=
  if f.present = false then .error ("Input file not found: " ++ f.name)
  else if lower (pySuffix f.name) ∈ ([".stp", ".step"] : List String) then .ok ()
  else .error ("Unsupported input extension: " ++ f.name)

/-- `open_file` (teczone_actions.py lines 302-389) as the pair (UI
actions performed, outcome).  The continuation `ui` abstracts everything
from `self.main.set_focus()` at line 310 onwards (focus changes,
keystrokes, dialog searches); the validation gate of lines 302-307 runs
first and, when it fails, the function raises with no UI action taken. -/
def open_file (f : FileInfo) (ui : List String × Except String Unit) :
    List String × Except String Unit :=
  match open_file_gate f with
  | .error e => ([], .error e)
  | .ok _ => ui

/-- JSON-like values, the data manipulated by `deep_merge` and the
workflow configuration (teczone_actions.py lines 36-64, 95-109).
Objects are association lists in insertion order, as Python dicts. -/
inductive JVal where
  | null
  | bool (b : Bool)
  | num (n : Int)
  | str (s : String)
  | arr (xs : List JVal)
  | obj (fields : List (String × JVal))
deriving Repr

/-- Python `d.get(key)`: the value at the first matching key, if any. -/
def jget (fields : List (String × JVal)) (k : String) : Option JVal :=
  match fields with
  | [] => none
  | (k', v) :: rest => if k' = k then some v else jget rest k

/-- Python `d[key] = value` on a dict kept as an insertion-ordered
association list: overwrite in place when the key exists, else append. -/
def jset (fields : List (String × JVal)) (k : String) (v : JVal) :
    List (String × JVal) :=
  match fields with
  | [] => [(k, v)]
  | (k', v') :: rest =>
      if k' = k then (k, v) :: rest else (k', v') :: jset rest k v

mutual

/-- The loop of `deep_merge` (teczone_actions.py lines 59-63) over the
override's items, one `deep_merge_entry` per key. -/
def deep_merge_fields :
    List (String × JVal) → List (String × JVal) → List (String × JVal)
  | base, [] => base
  | base, (k, v) :: rest =>
      deep_merge_fields (deep_merge_entry base k v (jget base k)) rest
termination_by _b l => sizeOf l

/-- The loop body of `deep_merge` (teczone_actions.py lines 60-63) for
one override item, given `out.get(key)`:
`if isinstance(value, dict) and isinstance(out.get(key), dict):`
`    out[key] = deep_merge(out[key], value)`
`else: out[key] = value`. -/
def deep_merge_entry (base : List (String × JVal)) (k : String) :
    JVal → Option JVal → List (String × JVal)
  | .obj vf, some (.obj bf) =>
      jset base k (.obj (deep_merge_fields bf vf))
  | v, _ => jset base k v
termination_by v _o => sizeOf v

end

/-- `deep_merge(base, override)` (teczone_actions.py lines 55-64) with a
dict base: `out = copy.deepcopy(base)` (the identity in this pure
embedding, which also renders line 56's never-mutate-the-argument
guarantee); `if not isinstance(override, dict): return out`; else fold
the loop body over the override's items. -/
def deep_merge (base : List (String × JVal)) (override : JVal) :
    List (String × JVal) :=
  match override with
  | .obj fields => deep_merge_fields base fields
  | _ => base

/-- `DEFAULT_WORKFLOW` (teczone_actions.py lines 36-48). -/
def DEFAULT_WORKFLOW : List (String × JVal) :=
  [("enterBendHotkey", .str "b"),
   ("useEnterBend", .bool true),
   ("exportMethod", .str "menu"),
   ("menuExportPath", .arr [.str "File", .str "Export", .str "2D Geometry"]),
   ("timeouts", .obj
     [("enterBendSeconds", .num 120),
      ("exportMenuSeconds", .num 10),
      ("saveAsSeconds", .num 20),
      ("exportCompleteSeconds", .num 30)]),
   ("materialRequired", .bool false)]

/-- `TecZoneSession._load_workflow` (teczone_actions.py lines 95-109) at
the level of its filesystem interactions: `configPresent` is
`path.exists()`, `parsed` is `some data` when the file reads and parses
as JSON, `none` when reading/parsing raises.  Missing file and parse
failure both fall back to `copy.deepcopy(DEFAULT_WORKFLOW)`
(lines 98-100, 107-109); success returns
`deep_merge(DEFAULT_WORKFLOW, data)` (line 104). -/
def load_workflow (configPresent : Bool) (parsed : Option JVal) :
    List (String × JVal) :=
  if configPresent then
    match parsed with
    | some data => deep_merge DEFAULT_WORKFLOW data
    | none => DEFAULT_WORKFLOW
  else DEFAULT_WORKFLOW

/-! ### Theorems settling the claims -/

/-- C1, counterexample: with material absent (`None`) and the workflow
configuration *not* marking material mandatory (`materialRequired =
false`, the default of `DEFAULT_WORKFLOW`), `set_material` still fails:
the guard at teczone_actions.py lines 425-426 raises before the
configuration is read, refuting the claim that the absent-material
policy is configuration-driven. -/
theorem C1_counterexample :
    set_material_gate none false =
      .error "Material from Xometry missing; material is required" := rfl

/-- C1, amended: for every call to `set_material` with an absent material
name (`None` or the empty string), the operation fails with NeedsHelp
regardless of whether the workflow configuration marks material
mandatory; the configuration-driven fail-or-skip policy applies only to
the later failure modes (material menu, dialog, or list not found). -/
theorem C1_amended (req : Bool) (m : Option String)
    (h : m = none ∨ m = some "") :
    set_material_gate m req =
      .error "Material from Xometry missing; material is required" := by
  rcases h with h | h <;> subst h <;> rfl

/-- Witness for C1_amended at `m = none`, `req = false`. -/
theorem C1_amended_witness :
    set_material_gate none false =
      .error "Material from Xometry missing; material is required" :=
  C1_amended false none (Or.inl rfl)

/-- C2, code evaluated at the failing input: a job whose two work items
both raise a generic exception (every part FAILED, none DONE, no
NEEDS_HELP) persists overall status PARTIAL, not FAILED: lines 583-584
of worker.py already lowered `overall_status` to PARTIAL on the first
failure, so the `else "FAILED"` branch of lines 602-603 is unreachable. -/
theorem C2_failing_eval :
    process_job .ok false [.raisesOther, .raisesOther] =
      some (Status.PARTIAL, [Status.FAILED, Status.FAILED]) := rfl

/-- C3, code evaluated at the failing input: connect succeeds, dry-run is
unset, and the single work item trips the extension check at worker.py
lines 474-475 (e.g. input path `part.stl`).  The resulting
`NeedsHelpError` is raised outside the per-item `try` and propagates out
of `process_job`; no Job Result is persisted (`process_job` returns
`none`), refuting the claim that every failure path writes one. -/
theorem C3_failing_eval :
    process_job .ok false [.badExtension] = none := rfl

/-- C4, counterexample: a poll iteration of the export-completion loop
in which the save dialog is *still present* (`saveDlg = true`) but the
output file already exists with non-zero size (`fileOk = true`) declares
success (via teczone_actions.py lines 750-753), refuting the claim that
success is never declared while the save dialog is present. -/
theorem C4_counterexample :
    export_poll [⟨false, false, false, true, true⟩] = .success := rfl

/-- C4, amended: `export_geo` declares success only when, within the
export-completion timeout, no unexpected dialog has appeared and the
output file exists with non-zero size; the save-dialog-presence check
does not gate success - in a poll iteration where the save dialog is
still present, success is declared as soon as the output file exists
with non-zero size - and if the file never has non-zero size before the
timeout the operation fails with NeedsHelp.  Formally: on runs free of
overwrite dialogs, (a) absent unexpected dialogs, the loop succeeds
exactly when some iteration sees the file with non-zero size, and times
out otherwise; (b) an unexpected dialog reached before any
file-non-zero iteration aborts with NeedsHelp. -/
theorem C4_amended :
    (∀ obs : List PollObs,
      (∀ o ∈ obs, o.overwrite = false ∧ o.unexpected = false) →
      export_poll obs =
        (if obs.any (fun o => o.fileOk) then .success else .helpTimeout))
    ∧ (∀ (pre : List PollObs) (o : PollObs) (rest : List PollObs),
        (∀ p ∈ pre,
          p.overwrite = false ∧ p.unexpected = false ∧ p.fileOk = false) →
        o.overwrite = false → o.unexpected = true →
        export_poll (pre ++ o :: rest) = .helpUnexpected) := by
  constructor
  · intro obs h
    induction obs with
    | nil => rfl
    | cons o rest ih =>
      obtain ⟨ho, hu⟩ := h o (List.mem_cons_self o rest)
      have hrest := fun p hp => h p (List.mem_cons_of_mem o hp)
      by_cases hf : o.fileOk
      · simp [export_poll, ho, hu, hf]
      · simp only [Bool.not_eq_true] at hf
        simp [export_poll, ho, hu, hf, ih hrest]
  · intro pre o rest h ho hu
    induction pre with
    | nil => simp [export_poll, ho, hu]
    | cons p pre' ih =>
      obtain ⟨hpo, hpu, hpf⟩ := h p (List.mem_cons_self p pre')
      have hpre := fun q hq => h q (List.mem_cons_of_mem p hq)
      simpa [export_poll, hpo, hpu, hpf] using ih hpre

/-- Witness for C4_amended: both conjuncts applied at concrete poll
sequences. -/
theorem C4_amended_witness :
    export_poll [⟨false, false, false, true, false⟩,
                 ⟨false, false, false, false, true⟩] = .success
    ∧ export_poll [⟨false, false, false, true, false⟩,
                   ⟨false, false, true, false, false⟩] = .helpUnexpected := by
  constructor
  · have h := C4_amended.1
      [⟨false, false, false, true, false⟩, ⟨false, false, false, false, true⟩]
      (by decide)
    simpa using h
  · have h := C4_amended.2 [⟨false, false, false, true, false⟩]
      ⟨false, false, true, false, false⟩ [] (by decide) rfl rfl
    simpa using h

/-- C5, code evaluated at the failing input: a job whose first work item
has an unsupported extension (e.g. path `part.stl`).  The check at
worker.py lines 474-475 aborts the loop *before* the item's
`part_result` dict is even built (line 478), so the in-progress work
item gets no Part Result: the run ends in `.error` with the accumulated
parts list empty, refuting the claim that even on early termination the
currently-in-progress item's partial result is still appended. -/
theorem C5_failing_eval :
    runItems .DONE [] [.badExtension] =
      .error ("Unsupported input extension", []) := rfl

/-- C6: during the per-work-item loop, (a) if a step primitive raises
NeedsHelp, the Job Runner appends that item's result with status
NEEDS_HELP and processes no further work items (anything after it in the
event list is discarded); (b) if a step raises any other exception, only
the current item is marked FAILED and processing continues with the next
work item. -/
theorem C6_needs_help_aborts_other_continues :
    (∀ (pre rest : List ItemEvent),
      (∀ e ∈ pre, e = ItemEvent.success ∨ e = ItemEvent.raisesOther) →
      ∀ (overall : Status) (acc : List Status),
        runItems overall acc (pre ++ ItemEvent.raisesNeedsHelp :: rest) =
          .ok (Status.NEEDS_HELP,
               acc ++ pre.filterMap partOf ++ [Status.NEEDS_HELP]))
    ∧ (∀ (overall : Status) (acc : List Status) (rest : List ItemEvent),
        runItems overall acc (ItemEvent.raisesOther :: rest) =
          runItems (if overall = Status.DONE then Status.PARTIAL else overall)
            (acc ++ [Status.FAILED]) rest) := by
  constructor
  · intro pre rest h
    induction pre with
    | nil => intro overall acc; simp [runItems, partOf]
    | cons e pre' ih =>
      intro overall acc
      have hpre := fun x hx => h x (List.mem_cons_of_mem e hx)
      rcases h e (List.mem_cons_self e pre') with he | he <;> subst he
      · simpa [runItems, partOf, List.append_assoc] using
          ih hpre overall (acc ++ [Status.DONE])
      · simpa [runItems, partOf, List.append_assoc] using
          ih hpre (if overall = Status.DONE then Status.PARTIAL else overall)
            (acc ++ [Status.FAILED])
  · intro overall acc rest; rfl

/-- Witness for C6 at a concrete run: one successful item, then a
NeedsHelp abort with a further item pending; the pending item is never
processed. -/
theorem C6_witness :
    runItems Status.DONE []
        [ItemEvent.success, ItemEvent.raisesNeedsHelp, ItemEvent.raisesOther] =
      .ok (Status.NEEDS_HELP, [Status.DONE, Status.NEEDS_HELP]) := by
  have h := C6_needs_help_aborts_other_continues.1
    [ItemEvent.success] [ItemEvent.raisesOther] (by decide) Status.DONE []
  simpa [partOf] using h

/-- C7: for every input path that does not exist or whose extension is
not one of the two accepted geometry extensions (`.stp`, `.step`,
case-insensitive), `open_file` raises NeedsHelp before any UI
interaction is attempted: the list of UI actions performed is empty. -/
theorem C7_open_file_fail_fast (f : FileInfo)
    (ui : List String × Except String Unit)
    (h : f.present = false ∨
      lower (pySuffix f.name) ∉ ([".stp", ".step"] : List String)) :
    (open_file f ui).1 = [] ∧
      ∃ e, (open_file f ui).2 = Except.error e := by
  rcases h with h | h
  · refine ⟨?_, "Input file not found: " ++ f.name, ?_⟩ <;>
      simp [open_file, open_file_gate, h]
  · by_cases hp : f.present = false
    · refine ⟨?_, "Input file not found: " ++ f.name, ?_⟩ <;>
        simp [open_file, open_file_gate, hp]
    · refine ⟨?_, "Unsupported input extension: " ++ f.name, ?_⟩ <;>
        simp [open_file, open_file_gate, hp, h]

/-- Witness for C7 at an existing file with the unaccepted extension
`.stl`, with a continuation that would perform a UI action. -/
theorem C7_witness :
    (open_file ⟨true, "part.stl"⟩ (["set_focus"], Except.ok ())).1 = [] ∧
      ∃ e, (open_file ⟨true, "part.stl"⟩
              (["set_focus"], Except.ok ())).2 = Except.error e :=
  C7_open_file_fail_fast ⟨true, "part.stl"⟩ (["set_focus"], Except.ok ())
    (Or.inr (by decide))

/-- Helper: the Python substring test accepts any suffix: `s in (pre + s)`. -/
theorem pyContains_append_right (pre s : String) :
    pyContains (pre ++ s) s = true := by
  unfold pyContains
  rw [List.any_eq_true]
  refine ⟨pre.data.length, ?_, ?_⟩
  · rw [List.mem_range, String.data_append, List.length_append]
    omega
  · rw [String.data_append, List.drop_left]
    simp [List.isPrefixOf_iff_prefix]

/-- C8: for every non-empty material selection list in which no item's
lowered label contains the lowered requested name as a substring,
`set_material` selects the first list entry (returning its label as the
applied material) and returns a non-empty fallback note that contains
the originally requested name; the selection step returns a value
rather than failing. -/
theorem C8_material_fallback (material first : String)
    (rest : List String)
    (hnomatch : ∀ l ∈ first :: rest,
      pyContains (lower l) (lower material) = false) :
    selectMaterial material (first :: rest) =
      some (first,
        "material fallback to: " ++ first ++ "; requested: " ++ material)
    ∧ ("material fallback to: " ++ first ++ "; requested: " ++ material)
        ≠ ""
    ∧ pyContains
        ("material fallback to: " ++ first ++ "; requested: " ++ material)
        material = true := by
  refine ⟨?_, ?_, ?_⟩
  · have hfind :
        (first :: rest).find?
          (fun l => pyContains (lower l) (lower material)) = none := by
      rw [List.find?_eq_none]
      intro l hl
      simp [hnomatch l hl]
    simp [selectMaterial, hfind]
  · intro h
    have := congrArg String.length h
    simp only [String.length_append] at this
    have h22 : ("material fallback to: ").length = 22 := rfl
    have h0 : ("" : String).length = 0 := rfl
    omega
  · exact pyContains_append_right
      ("material fallback to: " ++ first ++ "; requested: ") material

/-- Witness for C8 at `material = "Steel"`, selection list `["Alu"]`. -/
theorem C8_witness :
    selectMaterial "Steel" ["Alu"] =
      some ("Alu", "material fallback to: Alu; requested: Steel")
    ∧ ("material fallback to: Alu; requested: Steel" : String) ≠ ""
    ∧ pyContains "material fallback to: Alu; requested: Steel" "Steel"
        = true := by
  have h := C8_material_fallback "Steel" "Alu" [] (by decide)
  simpa using h

/-- C9: claiming is exclusive creation of the marker
`jobId ++ ".processing"` in the state directory: the marker name is as
stated; a successful claim puts the marker into the state; every
`claim_job` call made while the marker exists returns `false` (in
particular any further claim after a successful one); and `release_job`
renames the marker to the name with `".processing"` replaced by the
lower-cased final status. -/
theorem C9_claim_exclusive (state : List String)
    (jobId status : String) :
    (claim_job state jobId).2.2 = jobId ++ ".processing"
    ∧ ((claim_job state jobId).1 = true →
        jobId ++ ".processing" ∈ (claim_job state jobId).2.1)
    ∧ (∀ s : List String, jobId ++ ".processing" ∈ s →
        (claim_job s jobId).1 = false)
    ∧ (∀ s : List String, jobId ++ ".processing" ∈ s →
        ((jobId ++ ".processing").replace ".processing"
            ("." ++ lower status))
          ∈ release_job s (jobId ++ ".processing") status) := by
  refine ⟨?_, ?_, ?_, ?_⟩
  · simp only [claim_job]
    split <;> rfl
  · intro h
    by_cases hm : jobId ++ ".processing" ∈ state
    · simp [claim_job, hm] at h
    · simp [claim_job, hm]
  · intro s hs
    simp [claim_job, hs]
  · intro s hs
    simp [release_job, hs]

/-- Witness for C9: a fresh claim of `"job1"` succeeds and installs the
marker, a second claim against the resulting state fails, and releasing
with status `"DONE"` installs the renamed marker. -/
theorem C9_witness :
    (claim_job ([] : List String) "job1").2.2 = "job1.processing"
    ∧ "job1.processing" ∈ (claim_job ([] : List String) "job1").2.1
    ∧ (claim_job ["job1.processing"] "job1").1 = false
    ∧ ("job1.processing".replace ".processing" ("." ++ lower "DONE"))
        ∈ release_job ["job1.processing"] "job1.processing" "DONE" := by
  obtain ⟨h1, h2, h3, h4⟩ := C9_claim_exclusive ([] : List String) "job1" "DONE"
  exact ⟨h1, h2 (by decide), h3 ["job1.processing"] (by decide),
    h4 ["job1.processing"] (by decide)⟩

/-- Helper: a dict write never removes other keys: any key readable from
`b` is still readable after `jset b k v`. -/
theorem jget_jset_isSome (b : List (String × JVal)) (k : String) (v : JVal)
    (k' : String) (h : (jget b k').isSome) :
    (jget (jset b k v) k').isSome := by
  induction b with
  | nil =>
    simp [jget] at h
  | cons hd tl ih =>
    obtain ⟨k0, v0⟩ := hd
    by_cases h0 : k0 = k
    · subst h0
      by_cases h1 : k0 = k'
      · subst h1
        simp [jget, jset]
      · simp only [jget, jset, if_pos rfl, if_neg h1] at h ⊢
        simpa [h1] using h
    · by_cases h1 : k0 = k'
      · subst h1
        simp [jget, jset, h0]
      · simp only [jget, jset, if_neg h0, if_neg h1] at h ⊢
        exact ih h

/-- Helper: a dict write at key `k` leaves reads of other keys unchanged. -/
theorem jget_jset_ne (b : List (String × JVal)) (k : String) (v : JVal)
    (k' : String) (h : k' ≠ k) :
    jget (jset b k v) k' = jget b k' := by
  have hk : ¬k = k' := fun hh => h hh.symm
  induction b with
  | nil => simp [jget, jset, hk]
  | cons hd tl ih =>
    obtain ⟨k0, v0⟩ := hd
    by_cases h0 : k0 = k
    · subst h0
      simp [jget, jset, hk]
    · by_cases h1 : k0 = k'
      · subst h1
        simp [jget, jset, h0]
      · simp [jget, jset, h0, h1, ih]

/-- Helper: `deep_merge_entry` always writes exactly one key. -/
theorem deep_merge_entry_eq_jset (base : List (String × JVal)) (k : String)
    (v : JVal) (o : Option JVal) :
    ∃ w, deep_merge_entry base k v o = jset base k w := by
  cases v with
  | obj vf =>
    cases o with
    | none => exact ⟨.obj vf, by rw [deep_merge_entry]; simp⟩
    | some bv =>
      cases bv with
      | obj bf =>
          exact ⟨.obj (deep_merge_fields bf vf), by rw [deep_merge_entry]⟩
      | null => exact ⟨.obj vf, by rw [deep_merge_entry]; simp⟩
      | bool b => exact ⟨.obj vf, by rw [deep_merge_entry]; simp⟩
      | num n => exact ⟨.obj vf, by rw [deep_merge_entry]; simp⟩
      | str s => exact ⟨.obj vf, by rw [deep_merge_entry]; simp⟩
      | arr xs => exact ⟨.obj vf, by rw [deep_merge_entry]; simp⟩
  | null => exact ⟨.null, by rw [deep_merge_entry]; simp⟩
  | bool b => exact ⟨.bool b, by rw [deep_merge_entry]; simp⟩
  | num n => exact ⟨.num n, by rw [deep_merge_entry]; simp⟩
  | str s => exact ⟨.str s, by rw [deep_merge_entry]; simp⟩
  | arr xs => exact ⟨.arr xs, by rw [deep_merge_entry]; simp⟩

/-- Helper: the `deep_merge` loop never removes keys of the base. -/
theorem deep_merge_fields_isSome (ov : List (String × JVal)) :
    ∀ (base : List (String × JVal)) (k : String),
      (jget base k).isSome → (jget (deep_merge_fields base ov) k).isSome := by
  induction ov with
  | nil =>
    intro base k h
    rw [deep_merge_fields]
    exact h
  | cons p rest ih =>
    intro base k h
    obtain ⟨k0, v⟩ := p
    rw [deep_merge_fields]
    apply ih
    obtain ⟨w, hw⟩ := deep_merge_entry_eq_jset base k0 v (jget base k0)
    rw [hw]
    exact jget_jset_isSome _ _ _ _ h

/-- Helper: keys absent from the override keep their base values through
the `deep_merge` loop. -/
theorem deep_merge_fields_not_mem (ov : List (String × JVal)) :
    ∀ (base : List (String × JVal)) (k : String),
      (∀ p ∈ ov, p.1 ≠ k) →
      jget (deep_merge_fields base ov) k = jget base k := by
  induction ov with
  | nil =>
    intro base k _
    rw [deep_merge_fields]
  | cons p rest ih =>
    intro base k h
    obtain ⟨k0, v⟩ := p
    have hk0 : k0 ≠ k := h (k0, v) (List.mem_cons_self _ _)
    have hrest := fun q hq => h q (List.mem_cons_of_mem _ hq)
    rw [deep_merge_fields, ih _ _ hrest]
    obtain ⟨w, hw⟩ := deep_merge_entry_eq_jset base k0 v (jget base k0)
    rw [hw]
    exact jget_jset_ne _ _ _ _ (fun hh => hk0 hh.symm)

/-- C10: `deep_merge` (1) preserves every key of the base, (2) keeps the
base value at every key the override does not mention, (3) returns the
base unchanged when the override is not a dict, (4) is the identity for
the empty override, and consequently (5) every workflow configuration
produced by `_load_workflow` contains all keys of `DEFAULT_WORKFLOW`
(base mutation is ruled out by construction: the embedding is pure,
matching `copy.deepcopy(base)` at line 56). -/
theorem C10_deep_merge_keys :
    (∀ (base : List (String × JVal)) (ov : JVal) (k : String),
      (jget base k).isSome → (jget (deep_merge base ov) k).isSome)
    ∧ (∀ (base fields : List (String × JVal)) (k : String),
        (∀ p ∈ fields, p.1 ≠ k) →
        jget (deep_merge base (.obj fields)) k = jget base k)
    ∧ (∀ (base : List (String × JVal)) (ov : JVal),
        (∀ fields, ov ≠ JVal.obj fields) → deep_merge base ov = base)
    ∧ (∀ base : List (String × JVal), deep_merge base (.obj []) = base)
    ∧ (∀ (e : Bool) (p : Option JVal) (k : String),
        (jget DEFAULT_WORKFLOW k).isSome →
        (jget (load_workflow e p) k).isSome) := by
  have key1 : ∀ (base : List (String × JVal)) (ov : JVal) (k : String),
      (jget base k).isSome → (jget (deep_merge base ov) k).isSome := by
    intro base ov k h
    cases ov with
    | obj fields => exact deep_merge_fields_isSome fields base k h
    | _ => simpa [deep_merge] using h
  refine ⟨key1, ?_, ?_, ?_, ?_⟩
  · intro base fields k h
    exact deep_merge_fields_not_mem fields base k h
  · intro base ov h
    cases ov with
    | obj fields => exact absurd rfl (h fields)
    | _ => rfl
  · intro base
    show deep_merge_fields base [] = base
    rw [deep_merge_fields]
  · intro e p k h
    cases e with
    | false => simpa [load_workflow] using h
    | true =>
      cases p with
      | none => simpa [load_workflow] using h
      | some data =>
        simpa [load_workflow] using key1 DEFAULT_WORKFLOW data k h

/-- Witness for C10: each conjunct applied at concrete configurations. -/
theorem C10_witness :
    (jget (deep_merge DEFAULT_WORKFLOW
        (.obj [("materialRequired", .bool true)])) "timeouts").isSome
    ∧ jget (deep_merge DEFAULT_WORKFLOW (.obj [("extra", .num 1)]))
        "exportMethod" = jget DEFAULT_WORKFLOW "exportMethod"
    ∧ deep_merge DEFAULT_WORKFLOW (.num 7) = DEFAULT_WORKFLOW
    ∧ deep_merge DEFAULT_WORKFLOW (.obj []) = DEFAULT_WORKFLOW
    ∧ (jget (load_workflow true
        (some (.obj [("materialRequired", .bool true)])))
        "menuExportPath").isSome := by
  obtain ⟨h1, h2, h3, h4, h5⟩ := C10_deep_merge_keys
  refine ⟨h1 _ _ _ (by decide), h2 _ _ _ (by decide),
    h3 _ _ (fun fields hh => by cases hh), h4 _,
    h5 true _ _ (by decide)⟩

end TecZoneBend
